import Mathlib

/-!
# Verification of the ideadensity CPIDR/DEPID specification

A shallow embedding of the ideadensity repository's core data model and
operations.  Pure Python functions become Lean functions working on explicit
lists; in-place mutation of the word list becomes functional update.  Modules
of the repository that are present in the sources (`export_utils.py`) are
translated directly; modules whose sources are missing (only their tests and
callers exist) are modelled from the specification and pinned to the exact
behaviour asserted by the repository's own test-suite.
-/

namespace IdeaDensity

/-- Token record.  Translated from `word_item.py` (module not in the sources;
modelled from the spec §3 "Token Record" and the constructor uses in the
tests: `WordListItem()` gives an all-blank record, `WordListItem(token, tag)`
leaves the flags false, and `rule_number` defaults to `0`). -/
structure WordListItem where
  token : String
  tag : String
  is_word : Bool
  is_proposition : Bool
  rule_number : Nat
  deriving Repr, DecidableEq

/-- The all-blank record produced by the default constructor. -/
def blank : WordListItem := ⟨"", "", false, false, 0⟩

/-- Number of permanently blank sentinel records put before the real
content (spec §3; the tests fix it at `10`). -/
def NUMBER_OF_BLANK_WORD_ITEMS : Nat := 10

/-- Modelled from the spec: the reserved sentence-end tag from
`utils/constants.py` (not in the sources).  Every rule treats it as an
opaque distinguished string, so its exact spelling is irrelevant. -/
def SENTENCE_END : String := "^."

/-- Modelled from the spec: bound on the depth of a backward scan
(`word_search_utils.MAX_LOOKBACK`, module not in the sources). -/
def MAX_LOOKBACK : Nat := 10

/-- The `WordList(tagged_text)` construction: sentinel prefix followed by one
record per (token, tag) pair, flags false. -/
def mkWordList (tagged : List (String × String)) : List WordListItem :=
  List.replicate NUMBER_OF_BLANK_WORD_ITEMS blank ++
    tagged.map (fun p => ⟨p.1, p.2, false, false, 0⟩)

/-- Kernel-computable lowercasing (Python's `str.lower()` on ASCII):
`String.toLower` in Lean is defined by well-founded recursion and does
not reduce definitionally, so the model maps over the character list
directly. -/
def strLower (s : String) : String := ⟨s.data.map Char.toLower⟩

/-- Modelled from the spec (§4.1, `word_search_utils.is_repetition`, module
not in the sources): true when the earlier token `a` exactly equals `b`
or is a hyphen-truncated prefix of `b`; short (≤ 3 characters) and empty
tokens are never flagged.  Behaviour pinned by `test_is_repetition`. -/
def is_repetition (a b : String) : Bool :=
  if a.isEmpty || b.isEmpty then false
  else if a.length ≤ 3 then false
  else if a == b then true
  else if a.endsWith ("-") && b.startsWith (a.dropRight 1) then true
  else false

/-- Modelled from the spec (§4.1, `word_search_utils.search_backwards`,
module not in the sources): scan strictly backward from `from - 1`, at most
`MAX_LOOKBACK` slots deep, stopping with `none` at the first sentence-end
tagged record, skipping blank records, and raising (modelled as
`Except.error`) when a scanned index lies past the end of the list, exactly
as Python list indexing does in `test_search_backwards`.  The auxiliary
also carries the index of the record it returns. -/
def searchBackwardsAux (ws : List WordListItem) (p : WordListItem → Bool) :
    Nat → Nat → Except Unit (Option (Nat × WordListItem))
  | _, 0 => Except.ok none
  | 0, _ + 1 => Except.ok none
  | fuel + 1, j + 1 =>
    match ws[j]? with
    | none => Except.error ()
    | some w =>
      if w.tag == SENTENCE_END then Except.ok none
      else if w.token == "" then searchBackwardsAux ws p fuel j
      else if p w then Except.ok (some (j, w))
      else searchBackwardsAux ws p fuel j

/-- The public `search_backwards(word_list, i, condition)`: the record found, `none`
when nothing matches before a sentence boundary within the lookback bound,
`Except.error` for an index overrun. -/
def search_backwards (ws : List WordListItem) (i : Nat)
    (p : WordListItem → Bool) : Except Unit (Option WordListItem) :=
  (searchBackwardsAux ws p MAX_LOOKBACK i).map (fun o => o.map Prod.snd)

/-- Index-returning variant used by the proposition rules (in Python the
returned record is mutated through its object reference; the functional
model needs its index). -/
def search_backwards_index (ws : List WordListItem) (i : Nat)
    (p : WordListItem → Bool) : Option Nat :=
  match searchBackwardsAux ws p MAX_LOOKBACK i with
  | Except.ok (some jw) => some jw.1
  | _ => none

/-- Modelled from the spec (§4.1, `word_search_utils.beginning_of_sentence`,
module not in the sources): walk backward until a sentence-end record or a
blank sentinel, returning the index of the first record after it.
Behaviour pinned by the `test_beginning_of_sentence_*` tests. -/
def beginning_of_sentence (ws : List WordListItem) : Nat → Nat
  | 0 => 0
  | i + 1 =>
    match ws[i]? with
    | none => beginning_of_sentence ws i
    | some w =>
      if w.tag == SENTENCE_END || w.token == "" then i + 1
      else beginning_of_sentence ws i

/-- Sentence-ending surface tokens (spec §4.2 item 1; the caret is the
explicit sentence-break marker exercised by `test_sentence_end_marker`). -/
def SENTENCE_END_PUNCTUATION : List String := [".", "!", "?", "^"]

/-- Separator tokens that may join two cardinals (spec §4.2 item 2). -/
def CARDINAL_SEPARATORS : List String := [".", ","]

/-- Verb tags of the tagset (`utils/constants.py`, not in the sources). -/
def VERBS : List String := ["VB", "VBD", "VBG", "VBN", "VBP", "VBZ"]

/-- Noun tags of the tagset. -/
def NOUNS : List String := ["NN", "NNS", "NNP", "NNPS"]

/-- Determiner forms reclassified to pronoun before a verb (spec §4.2
item 6; `test_determiner_to_pronoun_adjustment` pins "that"). -/
def DEMONSTRATIVE_DETERMINERS : List String := ["that", "this", "these", "those"]

namespace RuleNumber

/-- Modelled from the spec: rule id of the sentence-end marker rewrite
(named constant in `utils/constants.py`, exact value not pinned by the
spec or the tests). -/
def SENTENCE_END_MARKER : Nat := 10

/-- Rule id of the speech-mode repetition suppression (pinned to `20` by
`test_repetition_in_speech_mode`). -/
def REPETITION : Nat := 20

/-- Modelled from the spec: rule id for marking alphanumeric tokens as
words (named constant, exact value not pinned). -/
def ALPHANUMERIC_WORD : Nat := 32

/-- Modelled from the spec: rule id of the consecutive-cardinal merge
(named constant, exact value not pinned). -/
def COMBINE_CONSECUTIVE_CARDINALS : Nat := 37

/-- Modelled from the spec: rule id of the cardinal-separator-cardinal
merge (named constant, exact value not pinned). -/
def COMBINE_CARDINALS_WITH_SEPARATOR : Nat := 38

/-- Rule id of negation pre-marking (pinned to `50`). -/
def NEGATION : Nat := 50

/-- Rule id of the determiner-to-pronoun adjustment (pinned to `54`). -/
def DETERMINER_TO_PRONOUN : Nat := 54

end RuleNumber

/-- First character of a token is alphanumeric (the tests classify words
with `token[0].isalnum()`). -/
def startsAlphanumeric (t : String) : Bool :=
  match t.toList with
  | [] => false
  | c :: _ => c.isAlphanum

/-- Modelled from the spec (§4.2, Pass 1 step of
`idea_density_rater_rules.identify_words_and_adjust_tags`, module not in
the sources): process position `i`, applying in priority order the
sentence-end rewrite, the two cardinal merges, word identification,
speech-mode repetition suppression, negation tagging, and the
determiner-to-pronoun adjustment.  The cardinal merges REMOVE the
consumed slots — the repository's own tests
(`test_combine_consecutive_cardinals`, `test_combine_cardinals_with_separator`)
assert the list shrinks by one and by two slots respectively, contrary to
the spec §3 tombstone note.  The speech-mode rule suppresses the EARLIER
occurrence (`test_repetition_in_speech_mode` asserts the first slot is
blanked); an exact case-insensitive match also counts as a repetition
there, since `is_repetition` itself rejects short tokens such as "the".
Negation contractions (forms of "not" ending in n-apostrophe-t) are
elided from the model; only the plain token "not" is covered, which is
all the tests exercise. -/
def identify_words_and_adjust_tags (ws : List WordListItem) (i : Nat)
    (speech_mode : Bool) : List WordListItem :=
  match ws[i]? with
  | none => ws
  | some w =>
    if SENTENCE_END_PUNCTUATION.contains w.token then
      ws.set i { w with tag := SENTENCE_END,
                        rule_number := RuleNumber.SENTENCE_END_MARKER }
    else if w.tag == "CD" && i != 0 &&
        ((ws[i-1]?).getD blank).tag == "CD" then
      let p := (ws[i-1]?).getD blank
      (ws.set (i-1)
        { p with token := p.token ++ " " ++ w.token, is_word := true,
                 rule_number := RuleNumber.COMBINE_CONSECUTIVE_CARDINALS }).eraseIdx i
    else if w.tag == "CD" && decide (2 ≤ i) &&
        ((ws[i-2]?).getD blank).tag == "CD" &&
        CARDINAL_SEPARATORS.contains ((ws[i-1]?).getD blank).token then
      let p := (ws[i-2]?).getD blank
      let s := (ws[i-1]?).getD blank
      ((ws.set (i-2)
        { p with token := p.token ++ s.token ++ w.token, is_word := true,
                 rule_number := RuleNumber.COMBINE_CARDINALS_WITH_SEPARATOR
        }).eraseIdx i).eraseIdx (i-1)
    else
      let ws := if startsAlphanumeric w.token then
          ws.set i { w with is_word := true,
                            rule_number := RuleNumber.ALPHANUMERIC_WORD }
        else ws
      let w := (ws[i]?).getD blank
      let ws := if (strLower w.token) == "not" then
          ws.set i { w with tag := "NOT", is_proposition := true,
                            rule_number := RuleNumber.NEGATION }
        else ws
      let w := (ws[i]?).getD blank
      let p := (ws[i-1]?).getD blank
      let ws := if speech_mode && w.token != "" && i != 0 && p.token != "" &&
          ((strLower p.token) == (strLower w.token) ||
            is_repetition (strLower p.token) (strLower w.token)) then
          ws.set (i-1) { p with tag := "", is_word := false,
                                is_proposition := false,
                                rule_number := RuleNumber.REPETITION }
        else ws
      let w := (ws[i]?).getD blank
      let p := (ws[i-1]?).getD blank
      if VERBS.contains w.tag && i != 0 && p.tag == "DT" &&
          DEMONSTRATIVE_DETERMINERS.contains (strLower p.token) then
        ws.set (i-1) { p with tag := "PRP", is_proposition := false,
                              rule_number := RuleNumber.DETERMINER_TO_PRONOUN }
      else ws

/-- Auxiliary/modal tags that can head an inverted question (spec §4.3;
the tests exercise "VBZ" and "MD"). -/
def AUX_TAGS : List String := ["MD", "VBZ", "VBP", "VBD"]

/-- Interrogative words that license aux inversion (spec §4.3 names
"why" and "where" as examples). -/
def INTERROGATIVES : List String := ["why", "where", "when", "how", "who", "what"]

/-- Index of the first sentence-end tagged record at or after `i`. -/
def find_sentence_end (ws : List WordListItem) (i : Nat) : Option Nat :=
  match (ws.drop i).findIdx? (fun w => w.tag == SENTENCE_END) with
  | some k => some (i + k)
  | none => none

/-- The inversion trigger of the word-order adjuster at position `i`: the
record carries an auxiliary/modal tag and either starts its sentence or
directly follows an interrogative word (spec §4.3). -/
def awo_trigger (ws : List WordListItem) (i : Nat) : Bool :=
  match ws[i]? with
  | none => false
  | some w =>
    AUX_TAGS.contains w.tag &&
      (beginning_of_sentence ws i == i ||
        (i != 0 && INTERROGATIVES.contains (strLower ((ws[i-1]?).getD blank).token)))

/-- Marker suffixed onto a moved auxiliary's surface text. -/
def moved_suffix : String := "/moved"

/-- Modelled from the spec (§4.3, Pass 2 step of
`idea_density_rater_rules.adjust_word_order`, module not in the sources):
when the inversion trigger holds at `i` and the sentence has an ending
punctuation record, the original auxiliary is made inert (text suffixed,
tag and flags cleared) and a copy carrying the original text and tag is
inserted just before the sentence-ending punctuation, marked word and
proposition with rule id 101; otherwise the stream is unchanged.  The
given index is returned in both cases, as the tests assert. -/
def adjust_word_order (ws : List WordListItem) (i : Nat) :
    List WordListItem × Nat :=
  match ws[i]? with
  | none => (ws, i)
  | some w =>
    if awo_trigger ws i then
      match find_sentence_end ws (i + 1) with
      | none => (ws, i)
      | some e =>
        let original := { w with token := w.token ++ moved_suffix, tag := "",
                                 is_word := false, is_proposition := false }
        let copy : WordListItem := ⟨w.token, w.tag, true, true, 101⟩
        ((ws.set i original).insertIdx e copy, i)
    else (ws, i)

/-- Tags whose bearers are propositions by default (rule 200; spec §4.4).
Modelled from the spec: `DEFAULT_PROPOSITIONS` of `utils/constants.py`
is not in the sources. -/
def DEFAULT_PROPOSITIONS : List String :=
  ["CC", "CD", "DT", "IN", "JJ", "JJR", "JJS", "MD", "PDT", "POS", "RB",
   "RBR", "RBS", "TO", "VB", "VBD", "VBG", "VBN", "VBP", "VBZ", "WDT", "WRB"]

/-- The three English articles (rule 201). -/
def ARTICLES : List String := ["a", "an", "the"]

/-- Modelled from the spec (§4.4, Pass 3 step of
`idea_density_rater_rules.identify_potential_propositions`, module not in
the sources): apply the numbered proposition rules at position `i`, in
rule order, each later rule overriding the stamps of earlier ones.  The
modelled subset is exactly the rules pinned by the repository's tests:
200 default, 201 articles, 203 correlating conjunctions, 204 "and then",
206 infinitive "to" at sentence end, 207 modal at sentence end, 210
cardinal before a noun, 211 "not ... unless" (via backward search), 212
"not any", 213 "going to" before a base verb, 214 "if ... then" (via
backward search), 225 reciprocal "each other", 230 "how come". -/
def identify_potential_propositions (ws : List WordListItem) (i : Nat)
    (speech_mode : Bool) : List WordListItem :=
  match ws[i]? with
  | none => ws
  | some w =>
    let ws := if DEFAULT_PROPOSITIONS.contains w.tag then
        ws.set i { w with is_proposition := true, rule_number := 200 }
      else ws
    let w := (ws[i]?).getD blank
    let ws := if w.tag == "DT" && ARTICLES.contains (strLower w.token) then
        ws.set i { w with is_proposition := false, rule_number := 201 }
      else ws
    let w := (ws[i]?).getD blank
    let p := (ws[i-1]?).getD blank
    let ws := if w.tag == "CC" &&
        ((strLower w.token) == "or" || (strLower w.token) == "nor") && i != 0 &&
        ((strLower p.token) == "either" || (strLower p.token) == "neither") then
        ws.set (i-1) { p with is_proposition := false, rule_number := 203 }
      else ws
    let w := (ws[i]?).getD blank
    let p := (ws[i-1]?).getD blank
    let ws := if (strLower w.token) == "then" && i != 0 &&
        (strLower p.token) == "and" then
        ws.set i { w with is_proposition := false, rule_number := 204 }
      else ws
    let w := (ws[i]?).getD blank
    let p := (ws[i-1]?).getD blank
    let ws := if w.tag == SENTENCE_END && i != 0 && p.tag == "TO" then
        ws.set (i-1) { p with is_proposition := false, rule_number := 206 }
      else ws
    let w := (ws[i]?).getD blank
    let p := (ws[i-1]?).getD blank
    let ws := if w.tag == SENTENCE_END && i != 0 && p.tag == "MD" then
        ws.set (i-1) { p with is_proposition := true, rule_number := 207 }
      else ws
    let w := (ws[i]?).getD blank
    let ws := if w.tag == "CD" then
        ws.set i { w with
          is_proposition := NOUNS.contains (((ws[i+1]?).getD blank).tag),
          rule_number := 210 }
      else ws
    let w := (ws[i]?).getD blank
    let ws := if (strLower w.token) == "unless" then
        match search_backwards_index ws i (fun u => u.tag == "NOT") with
        | some j =>
          let u := (ws[j]?).getD blank
          ws.set j { u with is_proposition := false, rule_number := 211 }
        | none => ws
      else ws
    let w := (ws[i]?).getD blank
    let p := (ws[i-1]?).getD blank
    let ws := if (strLower w.token) == "any" && i != 0 && p.tag == "NOT" then
        ws.set i { w with is_proposition := false, rule_number := 212 }
      else ws
    let w := (ws[i]?).getD blank
    let p := (ws[i-1]?).getD blank
    let p2 := (ws[i-2]?).getD blank
    let ws := if w.tag == "VB" && decide (2 ≤ i) && p.tag == "TO" &&
        (strLower p2.token) == "going" then
        (ws.set (i-1) { p with is_proposition := false, rule_number := 213
          }).set (i-2) { p2 with is_proposition := false, rule_number := 213 }
      else ws
    let p := (ws[i-1]?).getD blank
    let ws := if i != 0 && (strLower p.token) == "then" then
        match search_backwards_index ws (i-1)
            (fun u => (strLower u.token) == "if") with
        | some _ =>
          ws.set (i-1) { p with is_proposition := false, rule_number := 214 }
        | none => ws
      else ws
    let w := (ws[i]?).getD blank
    let p := (ws[i-1]?).getD blank
    let ws := if (strLower w.token) == "other" && i != 0 &&
        (strLower p.token) == "each" then
        (ws.set i { w with tag := "PRP", is_proposition := false,
                           rule_number := 225 }).set (i-1)
          { p with tag := "PRP", is_proposition := false, rule_number := 225 }
      else ws
    let w := (ws[i]?).getD blank
    let p := (ws[i-1]?).getD blank
    if (strLower w.token) == "come" && i != 0 && (strLower p.token) == "how" then
      ws.set i { w with tag := "WRB", is_proposition := false,
                        rule_number := 230 }
    else ws

/-- Fuel-bounded driver of Pass 1: visit each position once; when a merge
shrank the list the same index is revisited (it now holds the next
record). -/
def run_pass1_aux (speech : Bool) :
    Nat → List WordListItem → Nat → List WordListItem
  | 0, ws, _ => ws
  | fuel + 1, ws, i =>
    if i < ws.length then
      let ws2 := identify_words_and_adjust_tags ws i speech
      run_pass1_aux speech fuel ws2 (if ws2.length < ws.length then i else i + 1)
    else ws

/-- Pass 1 over the whole stream. -/
def run_pass1 (ws : List WordListItem) (speech : Bool) : List WordListItem :=
  run_pass1_aux speech (2 * ws.length + 1) ws 0

/-- Fuel-bounded driver of Pass 2. -/
def run_pass2_aux : Nat → List WordListItem → Nat → List WordListItem
  | 0, ws, _ => ws
  | fuel + 1, ws, i =>
    if i < ws.length then
      let r := adjust_word_order ws i
      run_pass2_aux fuel r.1 (r.2 + 1)
    else ws

/-- Pass 2 over the whole stream. -/
def run_pass2 (ws : List WordListItem) : List WordListItem :=
  run_pass2_aux (4 * ws.length + 4) ws 0

/-- Fuel-bounded driver of Pass 3 (never changes the length). -/
def run_pass3_aux (speech : Bool) :
    Nat → List WordListItem → Nat → List WordListItem
  | 0, ws, _ => ws
  | fuel + 1, ws, i =>
    if i < ws.length then
      run_pass3_aux speech fuel (identify_potential_propositions ws i speech)
        (i + 1)
    else ws

/-- Pass 3 over the whole stream. -/
def run_pass3 (ws : List WordListItem) (speech : Bool) : List WordListItem :=
  run_pass3_aux speech (ws.length + 1) ws 0

/-- Modelled from the spec (§4.5, `idea_density_rater.rate_text`, module
not in the sources): the orchestrator, taking the external tagger's
output (the tagger is an out-of-scope black box), building the stream,
running the three passes in order, and totalling words and propositions;
density is `0` for an empty word count, else the exact ratio.  The
annotated stream after the three passes: -/
def rate_text_stream (tagged : List (String × String))
    (speech_mode : Bool) : List WordListItem :=
  run_pass3 (run_pass2 (run_pass1 (mkWordList tagged) speech_mode))
    speech_mode

/-- Word total of the annotated stream. -/
def cpidr_word_count (tagged : List (String × String))
    (speech_mode : Bool) : Nat :=
  (rate_text_stream tagged speech_mode).countP (fun w => w.is_word)

/-- Proposition total of the annotated stream. -/
def cpidr_proposition_count (tagged : List (String × String))
    (speech_mode : Bool) : Nat :=
  (rate_text_stream tagged speech_mode).countP (fun w => w.is_proposition)

/-- The `(word_count, proposition_count, density, word_list)` result of
`rate_text`. -/
def rate_text (tagged : List (String × String)) (speech_mode : Bool) :
    Nat × Nat × ℚ × List WordListItem :=
  (cpidr_word_count tagged speech_mode,
   cpidr_proposition_count tagged speech_mode,
   if cpidr_word_count tagged speech_mode = 0 then (0 : ℚ)
   else (cpidr_proposition_count tagged speech_mode : ℚ) /
     (cpidr_word_count tagged speech_mode : ℚ),
   rate_text_stream tagged speech_mode)

/-- A parsed token as exposed by the external dependency parser (spec §6):
surface text, dependency label, coarse part of speech, the head token's
text and dependency label, and the punctuation/whitespace flags.  The
parser itself is an out-of-scope black box; `depid` consumes its
output. -/
structure SToken where
  text : String
  dep : String
  pos : String
  head_text : String
  head_dep : String
  is_punct : Bool
  is_space : Bool
  deriving Repr, DecidableEq

/-- Determiners excluded by the determiner filter (`depid.py`, not in the
sources; the tests pin "the" excluded, "this" not). -/
def EXCLUDED_DETERMINERS : List String := ["a", "an", "the"]

/-- Nominal subjects excluded by the nsubj filter (the tests pin "it" and
"this" excluded, "he" not). -/
def EXCLUDED_NSUBJ : List String := ["it", "this"]

/-- Token filter: drop excluded determiners (case-insensitive), keep
everything else.  Behaviour pinned by the `test_is_excluded_determiner_*`
tests. -/
def filter_excluded_determiners (t : SToken) : Bool :=
  !(t.dep == "det" && EXCLUDED_DETERMINERS.contains (strLower t.text))

/-- Token filter: drop excluded nominal subjects (case-insensitive). -/
def filter_excluded_nsubjs (t : SToken) : Bool :=
  !(t.dep == "nsubj" && EXCLUDED_NSUBJ.contains (strLower t.text))

/-- Token filter: drop coordinating-conjunction dependencies
(case-sensitive on the label, per `test_is_excluded_cc_case_sensitivity`). -/
def filter_cc (t : SToken) : Bool :=
  !(t.dep == "cc")

/-- Sentence filter: drop a sentence whose root subject is "I" or "you"
(case-insensitive), per the `test_is_i_you_subject_*` tests. -/
def filter_i_you_subject (sent : List SToken) : Bool :=
  !(sent.any (fun t =>
    ((strLower t.text) == "i" || (strLower t.text) == "you") &&
      t.dep == "nsubj" && t.head_dep == "ROOT"))

/-- Modelled from the spec (§4.6): the default inclusion rule for DEPID
dependencies — a fixed set of content dependency labels (`depid.py` is
not in the sources; the exact label list is opaque to every claim). -/
def DEPID_DEPENDENCIES : List String :=
  ["nsubj", "nsubjpass", "csubj", "csubjpass", "amod", "advmod", "advcl",
   "dobj", "iobj", "det", "cc", "conj", "prep", "npadvmod", "nummod",
   "poss", "appos", "ccomp", "xcomp"]

/-- A dependency triple (token text, dependency label, head text) as
returned by `depid` and written by `export_depid_to_csv`. -/
abbrev DepTriple := String × String × String

/-- Dependency extraction pipeline (spec §4.6): sentence filters gate
whole sentences, then the default inclusion rule and the token filters
select tokens of the surviving sentences, in order. -/
def depid_deps (doc : List (List SToken))
    (sentence_filters : List (List SToken → Bool))
    (token_filters : List (SToken → Bool)) : List DepTriple :=
  match doc with
  | [] => []
  | sent :: rest =>
    (if sentence_filters.all (fun f => f sent) then
      (sent.filter (fun t => DEPID_DEPENDENCIES.contains t.dep &&
        token_filters.all (fun f => f t))).map
          (fun t => ((t.text, t.dep, t.head_text) : DepTriple))
    else []) ++ depid_deps rest sentence_filters token_filters

/-- Word count of a parsed document: tokens that are neither punctuation
nor whitespace (pinned by `test_depid_punctuation_and_spaces`). -/
def doc_word_count (doc : List (List SToken)) : Nat :=
  match doc with
  | [] => 0
  | sent :: rest =>
    sent.countP (fun t => !t.is_punct && !t.is_space) + doc_word_count rest

/-- Modelled from the spec (§4.6, `depid.py`, module not in the sources):
the DEPID counter over the external parser's output.  The four `use_*`
flags prepend the corresponding stateless filter to the custom filter
lists; `is_depid_r` deduplicates the dependency list into a set (modelled
as a duplicate-free list); density is the (unique) dependency count over
the word count, `0` when the word count is `0`. -/
def depid (doc : List (List SToken)) (is_depid_r : Bool)
    (use_excluded_determiner_filter : Bool) (use_excluded_cc_filter : Bool)
    (use_excluded_nsubj_filter : Bool) (use_i_you_subject_filter : Bool)
    (custom_sentence_filters : List (List SToken → Bool))
    (custom_token_filters : List (SToken → Bool)) :
    ℚ × Nat × List DepTriple :=
  let sentence_filters :=
    (if use_i_you_subject_filter then [filter_i_you_subject] else []) ++
      custom_sentence_filters
  let token_filters :=
    (if use_excluded_determiner_filter then [filter_excluded_determiners]
      else []) ++
    (if use_excluded_cc_filter then [filter_cc] else []) ++
    (if use_excluded_nsubj_filter then [filter_excluded_nsubjs] else []) ++
    custom_token_filters
  let deps := depid_deps doc sentence_filters token_filters
  let deps := if is_depid_r then deps.dedup else deps
  let word_count := doc_word_count doc
  let density : ℚ :=
    if word_count = 0 then 0
    else (deps.length : ℚ) / (word_count : ℚ)
  (density, word_count, deps)

/-- One data row of the CPIDR CSV export: the token, tag and flag columns
and the already-formatted Rule Number cell. -/
structure CsvRow where
  token : String
  tag : String
  is_word : Bool
  is_proposition : Bool
  rule_cell : String
  deriving Repr, DecidableEq

/-- The row written for one non-skipped word item: the Rule Number cell
holds the rule number only on proposition rows, the empty string
otherwise (`export_utils.py`, lines 35-43). -/
def csvRowOf (item : WordListItem) : CsvRow :=
  ⟨item.token, item.tag, item.is_word, item.is_proposition,
    if item.is_proposition then toString item.rule_number else ""⟩

/-- Translated from `export_utils.export_cpidr_to_csv` (in the sources):
the data rows written to the CSV file, in order — items whose token and
tag are both empty are skipped. -/
def export_cpidr_to_csv_rows (items : List WordListItem) : List CsvRow :=
  items.filterMap (fun item =>
    if item.token == "" && item.tag == "" then none
    else some (csvRowOf item))

/-! ## Theorems -/

/-- C6: `is_repetition a b` is true exactly when `a` equals `b` or `a` is a
hyphen-truncated prefix of `b`, and neither input is empty nor is `a` at
most 3 characters long; in particular both guards make
`is_repetition "" ""` false. -/
theorem is_repetition_characterization (a b : String) :
    is_repetition a b = true ↔
      (a ≠ "" ∧ b ≠ "" ∧ 3 < a.length ∧
        (a = b ∨ (a.endsWith ("-") = true ∧
          b.startsWith (a.dropRight 1) = true))) := by
  unfold is_repetition
  by_cases h1 : (a.isEmpty || b.isEmpty) = true
  · rw [if_pos h1]
    simp only [Bool.or_eq_true, String.isEmpty_iff] at h1
    constructor
    · intro h
      simp at h
    · rintro ⟨ha, hb, _, _⟩
      rcases h1 with h | h
      · exact absurd h ha
      · exact absurd h hb
  · rw [if_neg h1]
    simp only [Bool.or_eq_true, String.isEmpty_iff, not_or] at h1
    obtain ⟨ha, hb⟩ := h1
    by_cases h2 : a.length ≤ 3
    · rw [if_pos h2]
      constructor
      · intro h
        simp at h
      · rintro ⟨_, _, h3, _⟩
        omega
    · rw [if_neg h2]
      by_cases h3 : (a == b) = true
      · rw [if_pos h3]
        have hab : a = b := by simpa using h3
        exact iff_of_true rfl ⟨ha, hb, by omega, Or.inl hab⟩
      · rw [if_neg h3]
        have hab : a ≠ b := by simpa using h3
        by_cases h4 : (a.endsWith ("-") && b.startsWith (a.dropRight 1)) = true
        · rw [if_pos h4]
          rw [Bool.and_eq_true] at h4
          exact iff_of_true rfl ⟨ha, hb, by omega, Or.inr h4⟩
        · rw [if_neg h4]
          rw [Bool.and_eq_true] at h4
          constructor
          · intro h
            simp at h
          · rintro ⟨_, _, _, hor⟩
            rcases hor with h | ⟨he, hs⟩
            · exact absurd h hab
            · exact absurd ⟨he, hs⟩ h4

/-- Unfolding equation of `searchBackwardsAux` with exhausted fuel. -/
theorem searchBackwardsAux_zero_fuel (ws : List WordListItem)
    (p : WordListItem → Bool) (i : Nat) :
    searchBackwardsAux ws p 0 i = Except.ok none := by
  cases i <;> rfl

/-- Unfolding equation of `searchBackwardsAux` at the bottom of the list. -/
theorem searchBackwardsAux_zero_idx (ws : List WordListItem)
    (p : WordListItem → Bool) (fuel : Nat) :
    searchBackwardsAux ws p fuel 0 = Except.ok none := by
  cases fuel <;> rfl

/-- Unfolding equation of `searchBackwardsAux` at a scanning step. -/
theorem searchBackwardsAux_succ (ws : List WordListItem)
    (p : WordListItem → Bool) (fuel j : Nat) :
    searchBackwardsAux ws p (fuel + 1) (j + 1) =
      match ws[j]? with
      | none => Except.error ()
      | some w =>
        if w.tag == SENTENCE_END then Except.ok none
        else if w.token == "" then searchBackwardsAux ws p fuel j
        else if p w then Except.ok (some (j, w))
        else searchBackwardsAux ws p fuel j := by
  rfl

/-- Helper: a run of `searchBackwardsAux` never reports an index error
when the starting position does not exceed the list length. -/
theorem searchBackwardsAux_ok (ws : List WordListItem)
    (p : WordListItem → Bool) :
    ∀ fuel i, i ≤ ws.length →
      searchBackwardsAux ws p fuel i ≠ Except.error () := by
  intro fuel
  induction fuel with
  | zero =>
    intro i hi
    rw [searchBackwardsAux_zero_fuel]
    simp
  | succ f ih =>
    intro i hi
    cases i with
    | zero =>
      rw [searchBackwardsAux_zero_idx]
      simp
    | succ j =>
      have hj : j < ws.length := by omega
      rw [searchBackwardsAux_succ, List.getElem?_eq_getElem hj]
      dsimp only
      split_ifs <;> simp_all
      · exact ih j (by omega)
      · exact ih j (by omega)

/-- Helper: an index error from `searchBackwardsAux` means a scanned slot
lay past the end of the list. -/
theorem searchBackwardsAux_error (ws : List WordListItem)
    (p : WordListItem → Bool) :
    ∀ fuel i, searchBackwardsAux ws p fuel i = Except.error () →
      ws.length < i := by
  intro fuel
  induction fuel with
  | zero =>
    intro i h
    rw [searchBackwardsAux_zero_fuel] at h
    simp at h
  | succ f ih =>
    intro i h
    cases i with
    | zero =>
      rw [searchBackwardsAux_zero_idx] at h
      simp at h
    | succ j =>
      rw [searchBackwardsAux_succ] at h
      cases hj : ws[j]? with
      | none =>
        have := List.getElem?_eq_none_iff.mp hj
        omega
      | some w =>
        rw [hj] at h
        dsimp only at h
        split_ifs at h
        · exact Nat.lt_succ_of_lt (ih j h)
        · exact Nat.lt_succ_of_lt (ih j h)

/-- C5 (amended): `search_backwards` reports an index error exactly when
the first scanned slot `from_index - 1` lies past the end of the list,
i.e. when `from_index` exceeds the list length; every smaller
`from_index` — including values inside the sentinel padding, outside the
valid content range — returns a result instead of raising. -/
theorem search_backwards_error_characterization
    (ws : List WordListItem) (i : Nat) (p : WordListItem → Bool) :
    search_backwards ws i p = Except.error () ↔ ws.length < i := by
  constructor
  · intro h
    apply searchBackwardsAux_error ws p MAX_LOOKBACK i
    unfold search_backwards at h
    cases haux : searchBackwardsAux ws p MAX_LOOKBACK i with
    | error e => rfl
    | ok o => rw [haux] at h; simp [Except.map] at h
  · intro h
    obtain ⟨j, rfl⟩ : ∃ j, i = j + 1 := ⟨i - 1, by omega⟩
    have hj : ws[j]? = none := by
      rw [List.getElem?_eq_none_iff]
      omega
    show (searchBackwardsAux ws p (9 + 1) (j + 1)).map _ = _
    rw [searchBackwardsAux, hj]
    rfl

/-- C5 counterexample: on a stream of ten sentinel records and no content,
`from_index = 3` lies inside the sentinel padding — outside the valid
content range — yet `search_backwards` returns a plain "not found"
result instead of raising, so "raises if and only if `from_index` lies
outside the stream's valid content range" fails. -/
theorem search_backwards_no_error_in_padding :
    search_backwards (List.replicate NUMBER_OF_BLANK_WORD_ITEMS blank) 3
        (fun _ => true) = Except.ok none ∧
      (3 : Nat) < NUMBER_OF_BLANK_WORD_ITEMS := by
  exact ⟨rfl, by decide⟩

/-- Helper: a successful `searchBackwardsAux` result comes from a scanned
slot: it lies strictly below the start, matches the predicate, is not
blank, and no slot from it up to the start (itself included) carries the
sentence-end tag; every strictly later scanned non-blank slot fails the
predicate. -/
theorem searchBackwardsAux_some (ws : List WordListItem)
    (p : WordListItem → Bool) :
    ∀ fuel i j w, searchBackwardsAux ws p fuel i = Except.ok (some (j, w)) →
      j < i ∧ ws[j]? = some w ∧ w.token ≠ "" ∧ p w = true ∧
        (∀ k, j ≤ k → k < i → ∀ u, ws[k]? = some u →
          u.tag ≠ SENTENCE_END) ∧
        (∀ k, j < k → k < i → ∀ u, ws[k]? = some u → u.token ≠ "" →
          p u = false) := by
  intro fuel
  induction fuel with
  | zero =>
    intro i j w h
    rw [searchBackwardsAux_zero_fuel] at h
    simp at h
  | succ f ih =>
    intro i j w h
    cases i with
    | zero =>
      rw [searchBackwardsAux_zero_idx] at h
      simp at h
    | succ m =>
      rw [searchBackwardsAux_succ] at h
      cases hm : ws[m]? with
      | none => rw [hm] at h; simp at h
      | some w0 =>
        rw [hm] at h
        dsimp only at h
        by_cases hse : w0.tag == SENTENCE_END
        · rw [if_pos hse] at h; simp at h
        · rw [if_neg hse] at h
          have hse2 : w0.tag ≠ SENTENCE_END := by
            simpa using hse
          by_cases hblank : w0.token == ""
          · rw [if_pos hblank] at h
            obtain ⟨h1, h2, h3, h4, h5, h6⟩ := ih m j w h
            refine ⟨by omega, h2, h3, h4, ?_, ?_⟩
            · intro k hk1 hk2 u hu
              rcases Nat.lt_or_ge k m with hk | hk
              · exact h5 k hk1 hk u hu
              · have : k = m := by omega
                subst this
                rw [hm] at hu
                cases hu
                exact hse2
            · intro k hk1 hk2 u hu hne
              rcases Nat.lt_or_ge k m with hk | hk
              · exact h6 k hk1 hk u hu hne
              · have : k = m := by omega
                subst this
                rw [hm] at hu
                cases hu
                exact absurd (by simpa using hblank) hne
          · rw [if_neg hblank] at h
            by_cases hp : p w0
            · rw [if_pos hp] at h
              have hinj := h
              simp only [Except.ok.injEq, Option.some.injEq, Prod.mk.injEq]
                at hinj
              obtain ⟨hj1, hw1⟩ := hinj
              subst hj1
              subst hw1
              refine ⟨Nat.lt_succ_self m, hm, by simpa using hblank, hp,
                ?_, ?_⟩
              · intro k hk1 hk2 u hu
                have hkm : k = m := by omega
                subst hkm
                rw [hm] at hu
                cases hu
                exact hse2
              · intro k hk1 hk2 u hu hne
                omega
            · rw [if_neg hp] at h
              obtain ⟨h1, h2, h3, h4, h5, h6⟩ := ih m j w h
              refine ⟨by omega, h2, h3, h4, ?_, ?_⟩
              · intro k hk1 hk2 u hu
                rcases Nat.lt_or_ge k m with hk | hk
                · exact h5 k hk1 hk u hu
                · have : k = m := by omega
                  subst this
                  rw [hm] at hu
                  cases hu
                  exact hse2
              · intro k hk1 hk2 u hu hne
                rcases Nat.lt_or_ge k m with hk | hk
                · exact h6 k hk1 hk u hu hne
                · have : k = m := by omega
                  subst this
                  rw [hm] at hu
                  cases hu
                  simpa using hp

/-- C4: a record returned by `search_backwards` sits at a slot strictly
between the start and the first sentence-end record encountered while
scanning backward — no slot from the match up to `from_index - 1` carries
the sentence-end tag, so the result never lies on the far side of that
boundary; it is moreover the nearest match, every strictly later scanned
non-blank slot failing the predicate. -/
theorem search_backwards_respects_sentence_boundary
    (ws : List WordListItem) (i : Nat) (p : WordListItem → Bool)
    (w : WordListItem) (h : search_backwards ws i p = Except.ok (some w)) :
    ∃ j, j < i ∧ ws[j]? = some w ∧ p w = true ∧
      (∀ k, j ≤ k → k < i → ∀ u, ws[k]? = some u →
        u.tag ≠ SENTENCE_END) ∧
      (∀ k, j < k → k < i → ∀ u, ws[k]? = some u → u.token ≠ "" →
        p u = false) := by
  unfold search_backwards at h
  cases haux : searchBackwardsAux ws p MAX_LOOKBACK i with
  | error e => rw [haux] at h; simp [Except.map] at h
  | ok o =>
    rw [haux] at h
    cases o with
    | none => simp [Except.map] at h
    | some jw =>
      simp [Except.map] at h
      obtain ⟨j0, w0, hjw⟩ : ∃ j0 w0, jw = (j0, w0) := ⟨jw.1, jw.2, rfl⟩
      subst hjw
      cases h
      obtain ⟨h1, h2, h3, h4, h5, h6⟩ :=
        searchBackwardsAux_some ws p MAX_LOOKBACK i j0 w0 haux
      exact ⟨j0, h1, h2, h4, h5, h6⟩

/-- Concrete stream for the C4 witness: content `A`, a sentence-end
record, `B`, `C`, mirroring the boundary case of `test_search_backwards`. -/
def wsBoundaryExample : List WordListItem :=
  List.replicate NUMBER_OF_BLANK_WORD_ITEMS blank ++
    [⟨"A", "TAG", false, false, 0⟩, ⟨".", SENTENCE_END, false, false, 0⟩,
     ⟨"B", "TAG", false, false, 0⟩, ⟨"C", "TAG", false, false, 0⟩]

/-- Witness for C4 at the boundary example: searching backward from slot
13 for tag "TAG" returns record `B`, and it indeed sits after the
sentence boundary. -/
theorem search_backwards_respects_sentence_boundary_witness :
    ∃ j, j < 13 ∧ wsBoundaryExample[j]? =
        some ⟨"B", "TAG", false, false, 0⟩ ∧
      (fun u => u.tag == "TAG") (⟨"B", "TAG", false, false, 0⟩ :
        WordListItem) = true ∧
      (∀ k, j ≤ k → k < 13 → ∀ u, wsBoundaryExample[k]? = some u →
        u.tag ≠ SENTENCE_END) ∧
      (∀ k, j < k → k < 13 → ∀ u, wsBoundaryExample[k]? = some u →
        u.token ≠ "" → (fun u => u.tag == "TAG") u = false) :=
  search_backwards_respects_sentence_boundary wsBoundaryExample 13
    (fun u => u.tag == "TAG") ⟨"B", "TAG", false, false, 0⟩ (by rfl)

set_option maxRecDepth 8192 in
/-- C1 counterexample: on the tagged input `10/CD 20/CD thirty/CD` the
stream is 13 slots long immediately after construction but only 11 slots
long after the three passes — the two cardinal merges each removed a
slot, so "stream length after all three passes equals the length
immediately after tagging" fails. -/
theorem stream_length_not_preserved :
    ((rate_text [("10", "CD"), ("20", "CD"), ("thirty", "CD")]
        false).2.2.2).length = 11 ∧
      (mkWordList [("10", "CD"), ("20", "CD"), ("thirty", "CD")]).length =
        13 ∧ (11 : Nat) ≠ 13 := by
  refine ⟨by rfl, by rfl, by decide⟩

/-- C1 (amended): the normalizer's cardinal merges remove the consumed
slots instead of leaving placeholders — a consecutive-cardinal merge at
`i` shrinks the stream by exactly one slot, and a
cardinal-separator-cardinal merge by exactly two, so the stream length
after the passes falls short of the length after tagging by the number
of merged-away tokens. -/
theorem cardinal_merges_remove_slots (ws : List WordListItem) (i : Nat)
    (w : WordListItem) (speech : Bool) (hw : ws[i]? = some w)
    (hpunct : SENTENCE_END_PUNCTUATION.contains w.token = false)
    (hcd : w.tag = "CD") :
    (i ≠ 0 → ((ws[i-1]?).getD blank).tag = "CD" →
      (identify_words_and_adjust_tags ws i speech).length + 1 = ws.length) ∧
    (2 ≤ i → ((ws[i-1]?).getD blank).tag ≠ "CD" →
      ((ws[i-2]?).getD blank).tag = "CD" →
      CARDINAL_SEPARATORS.contains ((ws[i-1]?).getD blank).token = true →
      (identify_words_and_adjust_tags ws i speech).length + 2 =
        ws.length) := by
  have hi : i < ws.length := by
    rcases List.getElem?_eq_some_iff.mp hw with ⟨h, _⟩
    exact h
  have hpunct2 : w.token ∉ SENTENCE_END_PUNCTUATION := by simpa using hpunct
  constructor
  · intro hne hprev
    unfold identify_words_and_adjust_tags
    rw [hw]
    dsimp only
    rw [if_neg (by simp [hpunct2]), if_pos (by simp [hcd, hprev, hne])]
    rw [List.length_eraseIdx]
    simp only [List.length_set]
    rw [if_pos hi]
    omega
  · intro h2 hprevne hp2 hsep
    have hsep2 : ((ws[i-1]?).getD blank).token ∈ CARDINAL_SEPARATORS := by
      simpa using hsep
    unfold identify_words_and_adjust_tags
    rw [hw]
    dsimp only
    rw [if_neg (by simp [hpunct2]),
      if_neg (by simp [hcd, hprevne]),
      if_pos (by simp [hcd, hp2, hsep2, h2])]
    have hlen1 : (((ws.set (i-2)
        { (ws[i-2]?).getD blank with
            token := ((ws[i-2]?).getD blank).token ++
              ((ws[i-1]?).getD blank).token ++ w.token,
            is_word := true,
            rule_number :=
              RuleNumber.COMBINE_CARDINALS_WITH_SEPARATOR }).eraseIdx
          i)).length = ws.length - 1 := by
      rw [List.length_eraseIdx]
      simp only [List.length_set]
      rw [if_pos hi]
    rw [List.length_eraseIdx, hlen1, if_pos (by omega)]
    omega

/-- Concrete stream of three consecutive cardinals for the C1 witness. -/
def wsCardinalsExample : List WordListItem :=
  mkWordList [("10", "CD"), ("20", "CD"), ("thirty", "CD")]

/-- Concrete stream of a separator-joined cardinal for the C1 witness. -/
def wsSeparatorExample : List WordListItem :=
  mkWordList [("10", "CD"), (".", ""), ("5", "CD")]

/-- Witness for the amended C1 at the test streams: the consecutive merge
drops one slot (13 to 12) and the separator merge drops two (13 to 11). -/
theorem cardinal_merges_remove_slots_witness :
    (identify_words_and_adjust_tags wsCardinalsExample 11 false).length + 1 =
        wsCardinalsExample.length ∧
      (identify_words_and_adjust_tags wsSeparatorExample 12 false).length +
          2 = wsSeparatorExample.length :=
  ⟨(cardinal_merges_remove_slots wsCardinalsExample 11
        ⟨"20", "CD", false, false, 0⟩ false rfl rfl rfl).1 (by decide) rfl,
    (cardinal_merges_remove_slots wsSeparatorExample 12
        ⟨"5", "CD", false, false, 0⟩ false rfl rfl rfl).2 (by decide)
      (by decide) rfl rfl⟩

/-- C7 counterexample: in speech mode on the stream built from
`the/DT the/DT`, after the normalizer pass the SECOND "the" still
carries tag "DT" and counts as a word — it is not the occurrence that
gets suppressed, so "the second `the` has `is_word = false` and an empty
tag" fails. -/
theorem second_the_keeps_tag :
    ((run_pass1 (mkWordList [("the", "DT"), ("the", "DT")]) true)[11]?).map
        WordListItem.tag = some "DT" ∧ ("DT" : String) ≠ "" ∧
      ((run_pass1 (mkWordList [("the", "DT"), ("the", "DT")]) true)[11]?).map
        WordListItem.is_word = some true := by
  refine ⟨by rfl, by decide, by rfl⟩

/-- C7 (amended): in speech mode on `the/DT the/DT` the FIRST (earlier)
occurrence is suppressed as the repetition — empty tag,
`is_word = false`, `is_proposition = false`, rule 20 — while the second
occurrence is left counted as a word. -/
theorem first_the_suppressed :
    (run_pass1 (mkWordList [("the", "DT"), ("the", "DT")]) true)[10]? =
        some ⟨"the", "", false, false, RuleNumber.REPETITION⟩ ∧
      (run_pass1 (mkWordList [("the", "DT"), ("the", "DT")]) true)[11]? =
        some ⟨"the", "DT", true, false, RuleNumber.ALPHANUMERIC_WORD⟩ :=
  ⟨rfl, rfl⟩

/-- C8: the word-order adjuster always returns the index it was given;
with no inversion trigger the stream is unchanged; and when the record at
`i` carries an auxiliary tag and either begins its sentence or follows an
interrogative word, with a sentence-ending record at `e`, the original
token is blanked in place (text suffixed with "/moved", tag cleared,
flags cleared) and a copy with the original text and tag — a word and a
proposition with rule id 101 — is inserted just before the
sentence-ending punctuation. -/
theorem adjust_word_order_spec (ws : List WordListItem) (i : Nat) :
    (adjust_word_order ws i).2 = i ∧
      (awo_trigger ws i = false → adjust_word_order ws i = (ws, i)) ∧
      (∀ w e, ws[i]? = some w →
        AUX_TAGS.contains w.tag = true →
        (beginning_of_sentence ws i = i ∨
          (i ≠ 0 ∧ INTERROGATIVES.contains
            (strLower ((ws[i-1]?).getD blank).token) = true)) →
        find_sentence_end ws (i + 1) = some e →
        adjust_word_order ws i =
          ((ws.set i { w with token := w.token ++ moved_suffix, tag := "",
                              is_word := false, is_proposition := false
            }).insertIdx e ⟨w.token, w.tag, true, true, 101⟩, i)) := by
  refine ⟨?_, ?_, ?_⟩
  · unfold adjust_word_order
    split
    · rfl
    · split_ifs
      · split <;> rfl
      · rfl
  · intro hno
    unfold adjust_word_order
    split
    · rfl
    · rw [if_neg (by simp [hno])]
  · intro w e hw haux htrig hfe
    have htrigb : awo_trigger ws i = true := by
      unfold awo_trigger
      rw [hw]
      dsimp only
      rw [haux]
      simp only [Bool.true_and]
      rcases htrig with h | ⟨hne, hint⟩
      · simp [h]
      · have hmem : strLower ((ws[i-1]?).getD blank).token ∈ INTERROGATIVES := by
          simpa using hint
        simp [hmem, hne]
    unfold adjust_word_order
    rw [hw]
    dsimp only
    rw [if_pos htrigb, hfe]

/-- Concrete inverted-question stream for the C8 witness, mirroring
`test_aux_at_sentence_start`. -/
def wsIsCatExample : List WordListItem :=
  List.replicate NUMBER_OF_BLANK_WORD_ITEMS blank ++
    [⟨"Is", "VBZ", true, false, 0⟩, ⟨"the", "DT", true, false, 0⟩,
     ⟨"cat", "NN", true, false, 0⟩, ⟨"happy", "JJ", true, false, 0⟩,
     ⟨"?", SENTENCE_END, false, false, 0⟩]

/-- Witness for C8 at the concrete stream `Is the cat happy ?`: the
auxiliary at slot 10 is blanked and its copy lands at slot 14, right
before the question mark, and the call returns index 10. -/
theorem adjust_word_order_spec_witness :
    adjust_word_order wsIsCatExample 10 =
      ((wsIsCatExample.set 10 ⟨"Is/moved", "", false, false, 0⟩).insertIdx 14
        ⟨"Is", "VBZ", true, true, 101⟩, 10) :=
  (adjust_word_order_spec wsIsCatExample 10).2.2 ⟨"Is", "VBZ", true, false, 0⟩
    14 rfl rfl (Or.inl rfl) rfl

/-- Unfolding equation: the word count returned by `depid` is the
document's word count, in both modes and for any filters. -/
theorem depid_wc (doc : List (List SToken)) (r d c n iy : Bool)
    (sfs : List (List SToken → Bool)) (tfs : List (SToken → Bool)) :
    (depid doc r d c n iy sfs tfs).2.1 = doc_word_count doc := rfl

/-- Unfolding equation: the dependency collection returned by `depid`,
deduplicated in DEPID-R mode. -/
theorem depid_deps_eq (doc : List (List SToken)) (r d c n iy : Bool)
    (sfs : List (List SToken → Bool)) (tfs : List (SToken → Bool)) :
    (depid doc r d c n iy sfs tfs).2.2 =
      (if r then
        (depid_deps doc
          ((if iy then [filter_i_you_subject] else []) ++ sfs)
          ((if d then [filter_excluded_determiners] else []) ++
            (if c then [filter_cc] else []) ++
            (if n then [filter_excluded_nsubjs] else []) ++ tfs)).dedup
      else
        depid_deps doc
          ((if iy then [filter_i_you_subject] else []) ++ sfs)
          ((if d then [filter_excluded_determiners] else []) ++
            (if c then [filter_cc] else []) ++
            (if n then [filter_excluded_nsubjs] else []) ++ tfs)) := rfl

/-- Unfolding equation: the DEPID-R collection is the deduplication of the
plain-mode collection, all other arguments equal. -/
theorem depid_true_deps (doc : List (List SToken)) (d c n iy : Bool)
    (sfs : List (List SToken → Bool)) (tfs : List (SToken → Bool)) :
    (depid doc true d c n iy sfs tfs).2.2 =
      ((depid doc false d c n iy sfs tfs).2.2).dedup := rfl

/-- Unfolding equation: the density returned by `depid`. -/
theorem depid_density (doc : List (List SToken)) (r d c n iy : Bool)
    (sfs : List (List SToken → Bool)) (tfs : List (SToken → Bool)) :
    (depid doc r d c n iy sfs tfs).1 =
      if doc_word_count doc = 0 then (0 : ℚ)
      else (((depid doc r d c n iy sfs tfs).2.2).length : ℚ) /
        (doc_word_count doc : ℚ) := rfl

set_option maxHeartbeats 1000000 in
/-- Unfolding equation: the CPIDR word and proposition counts are the
counts over the returned annotated stream. -/
theorem rate_text_counts (tagged : List (String × String)) (speech : Bool) :
    (rate_text tagged speech).1 =
        ((rate_text tagged speech).2.2.2).countP (fun w => w.is_word) ∧
      (rate_text tagged speech).2.1 =
        ((rate_text tagged speech).2.2.2).countP
          (fun w => w.is_proposition) := by
  unfold rate_text cpidr_word_count cpidr_proposition_count
  exact ⟨by with_reducible rfl, by with_reducible rfl⟩

set_option maxHeartbeats 1000000 in
/-- Unfolding equation: the CPIDR density. -/
theorem rate_text_density (tagged : List (String × String)) (speech : Bool) :
    (rate_text tagged speech).2.2.1 =
      if (rate_text tagged speech).1 = 0 then (0 : ℚ)
      else ((rate_text tagged speech).2.1 : ℚ) /
        ((rate_text tagged speech).1 : ℚ) := by
  unfold rate_text
  with_reducible rfl

set_option maxRecDepth 8192 in
/-- C2: for every tagged input, `rate_text` returns density exactly
`proposition_count / word_count` when the word count is positive and
density `0` (not an error) when the word count is `0`, the counts being
the flag counts over the returned stream; the empty input yields counts
`0`, density `0` and a stream of bare sentinels.  Likewise `depid`
returns `dependency_count / word_count` or `0`, and the empty document
yields `(0, 0, [])`. -/
theorem density_spec :
    (∀ tagged speech,
      ((rate_text tagged speech).1 = 0 →
        (rate_text tagged speech).2.2.1 = 0) ∧
      (0 < (rate_text tagged speech).1 →
        (rate_text tagged speech).2.2.1 =
          ((rate_text tagged speech).2.1 : ℚ) /
            ((rate_text tagged speech).1 : ℚ)) ∧
      (rate_text tagged speech).1 =
        ((rate_text tagged speech).2.2.2).countP (fun w => w.is_word) ∧
      (rate_text tagged speech).2.1 =
        ((rate_text tagged speech).2.2.2).countP
          (fun w => w.is_proposition)) ∧
    (∀ speech, rate_text [] speech =
      (0, 0, 0, List.replicate NUMBER_OF_BLANK_WORD_ITEMS blank)) ∧
    (∀ doc r d c n iy sfs tfs,
      ((depid doc r d c n iy sfs tfs).2.1 = 0 →
        (depid doc r d c n iy sfs tfs).1 = 0) ∧
      (0 < (depid doc r d c n iy sfs tfs).2.1 →
        (depid doc r d c n iy sfs tfs).1 =
          (((depid doc r d c n iy sfs tfs).2.2).length : ℚ) /
            ((depid doc r d c n iy sfs tfs).2.1 : ℚ))) ∧
    (∀ r d c n iy sfs tfs,
      depid ([] : List (List SToken)) r d c n iy sfs tfs = (0, 0, [])) := by
  refine ⟨fun tagged speech => ?_, fun speech => ?_,
    fun doc r d c n iy sfs tfs => ?_, fun r d c n iy sfs tfs => ?_⟩
  · refine ⟨?_, ?_, (rate_text_counts tagged speech).1,
      (rate_text_counts tagged speech).2⟩
    · intro h
      rw [rate_text_density, if_pos h]
    · intro h
      rw [rate_text_density, if_neg (by omega)]
  · cases speech <;> rfl
  · constructor
    · intro h
      rw [depid_density, depid_wc] at *
      rw [if_pos h]
    · intro h
      rw [depid_wc] at h
      rw [depid_density, depid_wc, if_neg (by omega)]
  · cases r <;> rfl

set_option maxRecDepth 8192 in
/-- Witness for C2 at the tagged input `cat/NN sat/VBD`: two words, one
proposition, density exactly one half. -/
theorem density_spec_witness :
    0 < (rate_text [("cat", "NN"), ("sat", "VBD")] false).1 ∧
      (rate_text [("cat", "NN"), ("sat", "VBD")] false).2.2.1 =
        ((rate_text [("cat", "NN"), ("sat", "VBD")] false).2.1 : ℚ) /
          ((rate_text [("cat", "NN"), ("sat", "VBD")] false).1 : ℚ) :=
  ⟨by decide, (density_spec.1 [("cat", "NN"), ("sat", "VBD")] false).2.1
    (by decide)⟩

/-- Unfolding equation of `depid_deps` on the empty document. -/
theorem depid_deps_nil (sfs : List (List SToken → Bool))
    (tfs : List (SToken → Bool)) : depid_deps [] sfs tfs = [] := rfl

/-- Unfolding equation of `depid_deps` on a document with a first
sentence. -/
theorem depid_deps_cons (sent : List SToken) (rest : List (List SToken))
    (sfs : List (List SToken → Bool)) (tfs : List (SToken → Bool)) :
    depid_deps (sent :: rest) sfs tfs =
      (if sfs.all (fun f => f sent) then
        (sent.filter (fun t => DEPID_DEPENDENCIES.contains t.dep &&
          tfs.all (fun f => f t))).map
            (fun t => ((t.text, t.dep, t.head_text) : DepTriple))
      else []) ++ depid_deps rest sfs tfs := rfl

/-- Unfolding equation of `doc_word_count` on a document with a first
sentence. -/
theorem doc_word_count_cons (sent : List SToken)
    (rest : List (List SToken)) :
    doc_word_count (sent :: rest) =
      sent.countP (fun t => !t.is_punct && !t.is_space) +
        doc_word_count rest := rfl

/-- Helper: under the parser contract that every token carrying an
included dependency label is neither punctuation nor whitespace, the
extracted dependency list never outnumbers the document's words. -/
theorem depid_deps_length_le (doc : List (List SToken))
    (sfs : List (List SToken → Bool)) (tfs : List (SToken → Bool))
    (h : ∀ sent ∈ doc, ∀ t ∈ sent,
      DEPID_DEPENDENCIES.contains t.dep = true →
        t.is_punct = false ∧ t.is_space = false) :
    (depid_deps doc sfs tfs).length ≤ doc_word_count doc := by
  induction doc with
  | nil => simp [depid_deps_nil]
  | cons sent rest ih =>
    rw [depid_deps_cons, doc_word_count_cons, List.length_append]
    have hrest := ih (fun s hs => h s (List.mem_cons_of_mem _ hs))
    have hsent : (if sfs.all (fun f => f sent) then
        (sent.filter (fun t => DEPID_DEPENDENCIES.contains t.dep &&
          tfs.all (fun f => f t))).map
            (fun t => ((t.text, t.dep, t.head_text) : DepTriple))
      else []).length ≤
        sent.countP (fun t => !t.is_punct && !t.is_space) := by
      split_ifs
      · rw [List.length_map, ← List.countP_eq_length_filter]
        apply List.countP_mono_left
        intro t ht hq
        rw [Bool.and_eq_true] at hq
        have hc := h sent (List.mem_cons_self _ _) t ht hq.1
        simp [hc.1, hc.2]
      · simp
    exact Nat.add_le_add hsent hrest

/-- C3: the DEPID-R result has pairwise distinct elements, never
outnumbers the word count (under the parser contract that tokens with
included dependency labels are real words), holds exactly the elements of
the plain-mode list (it is its deduplication), returns the same word
count, and — when the plain-mode list has no repeated dependencies — the
same density. -/
theorem depid_r_spec (doc : List (List SToken)) (d c n iy : Bool)
    (sfs : List (List SToken → Bool)) (tfs : List (SToken → Bool))
    (hcontent : ∀ sent ∈ doc, ∀ t ∈ sent,
      DEPID_DEPENDENCIES.contains t.dep = true →
        t.is_punct = false ∧ t.is_space = false) :
    ((depid doc true d c n iy sfs tfs).2.2).Nodup ∧
      ((depid doc true d c n iy sfs tfs).2.2).length ≤
        (depid doc true d c n iy sfs tfs).2.1 ∧
      (∀ x, x ∈ (depid doc true d c n iy sfs tfs).2.2 ↔
        x ∈ (depid doc false d c n iy sfs tfs).2.2) ∧
      (depid doc true d c n iy sfs tfs).2.1 =
        (depid doc false d c n iy sfs tfs).2.1 ∧
      (((depid doc false d c n iy sfs tfs).2.2).Nodup →
        (depid doc true d c n iy sfs tfs).1 =
          (depid doc false d c n iy sfs tfs).1) := by
  refine ⟨?_, ?_, ?_, ?_, ?_⟩
  · rw [depid_true_deps]
    exact List.nodup_dedup _
  · rw [depid_true_deps, depid_wc, depid_deps_eq doc false]
    calc ((depid doc false d c n iy sfs tfs).2.2).dedup.length
        ≤ ((depid doc false d c n iy sfs tfs).2.2).length :=
          (List.dedup_sublist _).length_le
      _ ≤ doc_word_count doc := by
          rw [depid_deps_eq doc false]
          simp only [if_neg Bool.false_ne_true]
          exact depid_deps_length_le doc _ _ hcontent
  · intro x
    rw [depid_true_deps]
    exact List.mem_dedup
  · rw [depid_wc, depid_wc]
  · intro hnd
    rw [depid_density doc true, depid_density doc false, depid_true_deps,
      List.dedup_eq_self.mpr hnd]

/-- Concrete one-sentence parsed document for the C3 witness. -/
def docExample : List (List SToken) :=
  [[⟨"The", "det", "DET", "cat", "nsubj", false, false⟩,
    ⟨"cat", "nsubj", "NOUN", "sat", "ROOT", false, false⟩,
    ⟨"sat", "ROOT", "VERB", "sat", "ROOT", false, false⟩]]

/-- Witness for C3 at the concrete document: the DEPID-R result of
`The cat sat` is duplicate-free, fits under the word count, and agrees
with the plain-mode list. -/
theorem depid_r_spec_witness :
    ((depid docExample true false false false false [] []).2.2).Nodup ∧
      ((depid docExample true false false false false [] []).2.2).length ≤
        (depid docExample true false false false false [] []).2.1 ∧
      (∀ x, x ∈ (depid docExample true false false false false [] []).2.2 ↔
        x ∈ (depid docExample false false false false false [] []).2.2) ∧
      (depid docExample true false false false false [] []).2.1 =
        (depid docExample false false false false false [] []).2.1 ∧
      (((depid docExample false false false false false [] []).2.2).Nodup →
        (depid docExample true false false false false [] []).1 =
          (depid docExample false false false false false [] []).1) :=
  depid_r_spec docExample false false false false [] [] (by decide)

/-- Helper: enlarging the filter pipelines (every stream that passes the
enlarged sentence filters passes the original ones, likewise for token
filters) refines the extracted dependency list to a sublist. -/
theorem depid_deps_sublist (doc : List (List SToken))
    (sfs1 sfs2 : List (List SToken → Bool))
    (tfs1 tfs2 : List (SToken → Bool))
    (hs : ∀ sent, sfs2.all (fun f => f sent) = true →
      sfs1.all (fun f => f sent) = true)
    (ht : ∀ t, tfs2.all (fun f => f t) = true →
      tfs1.all (fun f => f t) = true) :
    (depid_deps doc sfs2 tfs2).Sublist (depid_deps doc sfs1 tfs1) := by
  induction doc with
  | nil => simp [depid_deps_nil]
  | cons sent rest ih =>
    rw [depid_deps_cons, depid_deps_cons]
    refine List.Sublist.append ?_ ih
    by_cases h2 : sfs2.all (fun f => f sent) = true
    · rw [if_pos h2, if_pos (hs sent h2)]
      apply List.Sublist.map
      apply List.monotone_filter_right
      intro t hq
      rw [Bool.and_eq_true] at hq ⊢
      exact ⟨hq.1, ht t hq.2⟩
    · rw [if_neg h2]
      exact List.nil_sublist _

/-- Helper: a sublist has no more distinct elements than its superlist. -/
theorem dedup_length_le_of_sublist {α : Type} [DecidableEq α]
    (l1 l2 : List α) (h : l1.Sublist l2) :
    l1.dedup.length ≤ l2.dedup.length := by
  rw [← List.card_toFinset, ← List.card_toFinset]
  apply Finset.card_le_card
  intro x hx
  rw [List.mem_toFinset] at hx ⊢
  exact h.subset hx

/-- Helper: the returned dependency count shrinks (in either mode) when
the filter pipelines are enlarged. -/
theorem depid_count_le (doc : List (List SToken)) (r : Bool)
    (sfs1 sfs2 : List (List SToken → Bool))
    (tfs1 tfs2 : List (SToken → Bool))
    (hs : ∀ sent, sfs2.all (fun f => f sent) = true →
      sfs1.all (fun f => f sent) = true)
    (ht : ∀ t, tfs2.all (fun f => f t) = true →
      tfs1.all (fun f => f t) = true) :
    (if r then (depid_deps doc sfs2 tfs2).dedup
      else depid_deps doc sfs2 tfs2).length ≤
    (if r then (depid_deps doc sfs1 tfs1).dedup
      else depid_deps doc sfs1 tfs1).length := by
  have hsub := depid_deps_sublist doc sfs1 sfs2 tfs1 tfs2 hs ht
  cases r
  · simpa using hsub.length_le
  · simpa using dedup_length_le_of_sublist _ _ hsub

/-- Helper: a smaller dependency count gives a smaller (or equal)
density at the same word count. -/
theorem density_mono (e d wc : Nat) (h : e ≤ d) :
    (if wc = 0 then (0 : ℚ) else (e : ℚ) / (wc : ℚ)) ≤
      (if wc = 0 then (0 : ℚ) else (d : ℚ) / (wc : ℚ)) := by
  split_ifs with h0
  · exact le_refl _
  · have hwc : (0 : ℚ) < (wc : ℚ) := by
      exact_mod_cast Nat.pos_of_ne_zero h0
    rw [div_le_div_right hwc]
    exact_mod_cast h

/-- Reduction of an enabled optional filter segment. -/
theorem cond_filters_true {α : Type} (x : List α) :
    (if true then x else ([] : List α)) = x := rfl

/-- Reduction of a disabled optional filter segment. -/
theorem cond_filters_false {α : Type} (x : List α) :
    (if false then x else ([] : List α)) = [] := rfl

/-- C9: enabling any one of the four exclusion filters
(`use_excluded_determiner_filter`, `use_excluded_cc_filter`,
`use_excluded_nsubj_filter`, `use_i_you_subject_filter`) never increases
the dependency count or the density relative to the same document with
that filter disabled, all other arguments equal. -/
theorem depid_filter_monotone (doc : List (List SToken)) (r d c n iy : Bool)
    (sfs : List (List SToken → Bool)) (tfs : List (SToken → Bool)) :
    (((depid doc r true c n iy sfs tfs).2.2).length ≤
        ((depid doc r false c n iy sfs tfs).2.2).length ∧
      (depid doc r true c n iy sfs tfs).1 ≤
        (depid doc r false c n iy sfs tfs).1) ∧
    (((depid doc r d true n iy sfs tfs).2.2).length ≤
        ((depid doc r d false n iy sfs tfs).2.2).length ∧
      (depid doc r d true n iy sfs tfs).1 ≤
        (depid doc r d false n iy sfs tfs).1) ∧
    (((depid doc r d c true iy sfs tfs).2.2).length ≤
        ((depid doc r d c false iy sfs tfs).2.2).length ∧
      (depid doc r d c true iy sfs tfs).1 ≤
        (depid doc r d c false iy sfs tfs).1) ∧
    (((depid doc r d c n true sfs tfs).2.2).length ≤
        ((depid doc r d c n false sfs tfs).2.2).length ∧
      (depid doc r d c n true sfs tfs).1 ≤
        (depid doc r d c n false sfs tfs).1) := by
  have step : ∀ (d1 c1 n1 iy1 d2 c2 n2 iy2 : Bool),
      ((depid doc r d1 c1 n1 iy1 sfs tfs).2.2).length ≤
        ((depid doc r d2 c2 n2 iy2 sfs tfs).2.2).length →
      (depid doc r d1 c1 n1 iy1 sfs tfs).1 ≤
        (depid doc r d2 c2 n2 iy2 sfs tfs).1 := by
    intro d1 c1 n1 iy1 d2 c2 n2 iy2 hle
    rw [depid_density doc r d1 c1 n1 iy1 sfs tfs,
      depid_density doc r d2 c2 n2 iy2 sfs tfs]
    exact density_mono _ _ _ hle
  have hcount_d : ((depid doc r true c n iy sfs tfs).2.2).length ≤
      ((depid doc r false c n iy sfs tfs).2.2).length := by
    rw [depid_deps_eq doc r true c n iy sfs tfs,
      depid_deps_eq doc r false c n iy sfs tfs]
    apply depid_count_le
    · intro s h
      exact h
    · intro t h
      simp only [cond_filters_true, cond_filters_false, List.nil_append,
        List.singleton_append, List.all_append, List.all_cons,
        Bool.and_eq_true] at h ⊢
      tauto
  have hcount_c : ((depid doc r d true n iy sfs tfs).2.2).length ≤
      ((depid doc r d false n iy sfs tfs).2.2).length := by
    rw [depid_deps_eq doc r d true n iy sfs tfs,
      depid_deps_eq doc r d false n iy sfs tfs]
    apply depid_count_le
    · intro s h
      exact h
    · intro t h
      simp only [cond_filters_true, cond_filters_false, List.nil_append,
        List.singleton_append, List.all_append, List.all_cons,
        Bool.and_eq_true] at h ⊢
      tauto
  have hcount_n : ((depid doc r d c true iy sfs tfs).2.2).length ≤
      ((depid doc r d c false iy sfs tfs).2.2).length := by
    rw [depid_deps_eq doc r d c true iy sfs tfs,
      depid_deps_eq doc r d c false iy sfs tfs]
    apply depid_count_le
    · intro s h
      exact h
    · intro t h
      simp only [cond_filters_true, cond_filters_false, List.nil_append,
        List.singleton_append, List.all_append, List.all_cons,
        Bool.and_eq_true] at h ⊢
      tauto
  have hcount_iy : ((depid doc r d c n true sfs tfs).2.2).length ≤
      ((depid doc r d c n false sfs tfs).2.2).length := by
    rw [depid_deps_eq doc r d c n true sfs tfs,
      depid_deps_eq doc r d c n false sfs tfs]
    apply depid_count_le
    · intro s h
      simp only [cond_filters_true, cond_filters_false, List.nil_append,
        List.singleton_append, List.all_append, List.all_cons,
        Bool.and_eq_true] at h ⊢
      tauto
    · intro t h
      exact h
  exact ⟨⟨hcount_d, step true c n iy false c n iy hcount_d⟩,
    ⟨hcount_c, step d true n iy d false n iy hcount_c⟩,
    ⟨hcount_n, step d c true iy d c false iy hcount_n⟩,
    ⟨hcount_iy, step d c n true d c n false hcount_iy⟩⟩

/-- C10: the CPIDR CSV export writes one row per item whose token or tag
is non-empty (all-empty sentinel records are skipped), and the Rule
Number cell is filled only on proposition rows — every non-proposition
row carries the empty string there even when a rule number is set, and
every kept item appears as its row. -/
theorem export_cpidr_to_csv_rows_spec (items : List WordListItem) :
    (export_cpidr_to_csv_rows items).length =
        items.countP (fun item => !(item.token == "" && item.tag == "")) ∧
      (∀ r ∈ export_cpidr_to_csv_rows items,
        r.is_proposition = false → r.rule_cell = "") ∧
      (∀ r ∈ export_cpidr_to_csv_rows items,
        r.is_proposition = true →
          ∃ item ∈ items, r = csvRowOf item ∧
            r.rule_cell = toString item.rule_number) ∧
      (∀ item ∈ items, ¬(item.token = "" ∧ item.tag = "") →
        csvRowOf item ∈ export_cpidr_to_csv_rows items) := by
  refine ⟨?_, ?_, ?_, ?_⟩
  · induction items with
    | nil => rfl
    | cons a l ih =>
      unfold export_cpidr_to_csv_rows at ih ⊢
      rw [List.filterMap_cons, List.countP_cons]
      by_cases h : (a.token == "" && a.tag == "") = true
      · rw [if_pos h, if_neg (by simp [h])]
        rw [Nat.add_zero]
        exact ih
      · rw [if_neg h, if_pos (by simp [h])]
        rw [List.length_cons, ih]
  · intro r hr hprop
    unfold export_cpidr_to_csv_rows at hr
    obtain ⟨item, hitem, hf⟩ := List.mem_filterMap.mp hr
    by_cases h : (item.token == "" && item.tag == "") = true
    · rw [if_pos h] at hf
      cases hf
    · rw [if_neg h] at hf
      cases hf
      unfold csvRowOf at hprop ⊢
      dsimp only at hprop ⊢
      rw [if_neg (by rw [hprop]; exact Bool.false_ne_true)]
  · intro r hr hprop
    unfold export_cpidr_to_csv_rows at hr
    obtain ⟨item, hitem, hf⟩ := List.mem_filterMap.mp hr
    by_cases h : (item.token == "" && item.tag == "") = true
    · rw [if_pos h] at hf
      cases hf
    · rw [if_neg h] at hf
      cases hf
      refine ⟨item, hitem, rfl, ?_⟩
      unfold csvRowOf at hprop ⊢
      dsimp only at hprop ⊢
      rw [if_pos hprop]
  · intro item hitem hne
    unfold export_cpidr_to_csv_rows
    apply List.mem_filterMap.mpr
    refine ⟨item, hitem, ?_⟩
    have hcond : ¬((item.token == "" && item.tag == "") = true) := by
      intro hc
      rw [Bool.and_eq_true, beq_iff_eq, beq_iff_eq] at hc
      exact hne hc
    rw [if_neg hcond]

/-- Concrete item list for the C10 witness: a sentinel (skipped), a
proposition row, and a non-proposition row that nevertheless has a rule
number set. -/
def csvItemsExample : List WordListItem :=
  [⟨"", "", false, false, 0⟩, ⟨"test", "NN", true, true, 5⟩,
   ⟨"is", "VBZ", true, false, 7⟩]

/-- Witness for C10 at the concrete items: the non-proposition row of
"is" is exported with an empty Rule Number cell despite its rule number
7, and the row count skips the sentinel. -/
theorem export_cpidr_to_csv_rows_spec_witness :
    csvRowOf ⟨"is", "VBZ", true, false, 7⟩ ∈
        export_cpidr_to_csv_rows csvItemsExample ∧
      (csvRowOf ⟨"is", "VBZ", true, false, 7⟩).rule_cell = "" ∧
      (export_cpidr_to_csv_rows csvItemsExample).length = 2 := by
  have h := export_cpidr_to_csv_rows_spec csvItemsExample
  have hmem := h.2.2.2 ⟨"is", "VBZ", true, false, 7⟩ (by decide) (by decide)
  exact ⟨hmem, h.2.1 _ hmem (by decide), by rw [h.1]; decide⟩

end IdeaDensity
